import Mathlib

/-!
Verification of the R3-Cycle reverse-vending kiosk controller
(`raspberry_pi/main.py`, `raspberry_pi/sync.py`) against its
natural-language specification.

The embedding models time in units of 10 ms, so the source's
`time.sleep(0.1)` advances the clock by 10, `time.sleep(0.05)` by 5, and
the 0.2 s debounce window is 20 units.  The infrared sensor is a stream
`Nat → Bool` consumed one reading per `GPIO.input` call (`true` = HIGH =
clear, `false` = LOW = paper present).  Machine configuration constants
that live in the (not vendored) `config.py` are parameters of the model.
-/

namespace R3Cycle

/-! ## Paper detector (`TransactionProcessor.wait_for_multiple_papers`) -/

/-- `IR_DETECTION_TIME = 0.2` s (main.py:1247), in 10 ms units. -/
def IR_DETECTION_TIME : Nat := 20

/-- Configuration constants read by `wait_for_multiple_papers`:
`PAPER_INSERTION_INACTIVITY_TIMEOUT`, `PAPER_INSERTION_TIMEOUT`,
`MAX_PAPERS_PER_TRANSACTION`, plus the `initial_start_time` snapshot
taken at main.py:1253. -/
structure DetCfg where
  inactivityTimeout : Nat
  initialTimeout : Nat
  maxPapers : Nat
  initialStart : Nat
deriving Repr, DecidableEq

/-- Mutable locals of the detection loop (main.py:1246-1257) together
with the wall clock and the next sensor-read index. -/
structure DetState where
  paperCount : Nat
  lastDetect : Option Nat
  firstLow : Option Nat
  waitingClear : Bool
  clock : Nat
  idx : Nat
deriving Repr, DecidableEq

/-- Number of HIGH readings among `n` consecutive `GPIO.input` calls
starting at stream index `idx` (the `stable_high_count` loops). -/
def countHighReads (stream : Nat → Bool) (idx n : Nat) : Nat :=
  (List.range n).countP (fun k => stream (idx + k))

/-- The Python value returned by `wait_for_multiple_papers`:
`none` is Python `None` (the implicit return after the max-papers
`break` at main.py:1345), `some (b, n)` is the tuple `(b, n)`. -/
abbrev DetResult := Option (Bool × Nat)

/-- Detection logic of one loop iteration (main.py:1314-1358): debounced
LOW counting.  Reaching `MAX_PAPERS_PER_TRANSACTION` executes `break`,
which falls off the end of the function, returning Python `None`. -/
def applyDetection (cfg : DetCfg) (raw : Bool) (currentTime : Nat)
    (s : DetState) : DetResult ⊕ DetState :=
  if raw = false then
    -- GPIO LOW: start or continue the candidate timer (`first_low_time`)
    if IR_DETECTION_TIME ≤ currentTime - s.firstLow.getD currentTime then
      if cfg.maxPapers ≤ s.paperCount + 1 then
        .inl none
      else
        .inr { s with paperCount := s.paperCount + 1,
                      lastDetect := some currentTime,
                      waitingClear := true, firstLow := none }
    else
      .inr { s with firstLow := some (s.firstLow.getD currentTime) }
  else
    -- GPIO HIGH: cancel any candidate timer (false alarm)
    .inr { s with firstLow := none }

/-- Timeout checks of one loop iteration (main.py:1365-1409).  On the
inactivity timeout the source first runs a bounded sensor-clear wait
(modelled separately as `clearWaitAux`, it does not affect the returned
value) and then returns `(True, paper_count)` if `paper_count > 0`, else
`(False, 0)`.  The initial timeout returns `(False, 0)`.  Otherwise the
iteration ends with `time.sleep(0.1)`. -/
def inactivityHit (cfg : DetCfg) (currentTime : Nat) (s : DetState) : Bool :=
  match s.lastDetect with
  | some t => decide (cfg.inactivityTimeout ≤ currentTime - t)
  | none => false

def applyTimeouts (cfg : DetCfg) (currentTime : Nat)
    (s : DetState) : DetResult ⊕ DetState :=
  if inactivityHit cfg currentTime s then
    if 0 < s.paperCount then .inl (some (true, s.paperCount))
    else .inl (some (false, 0))
  else if s.paperCount = 0 && s.lastDetect = none
      && decide (cfg.initialTimeout ≤ currentTime - cfg.initialStart) then
    .inl (some (false, 0))
  else
    .inr { s with clock := s.clock + 10 }

/-- The `waiting_for_clear` HIGH-poll handling (main.py:1296-1308): a
quick 3-read stability check (0.05 s sleeps); a stable HIGH (≥ 2 of 3)
clears the flag and resets the candidate timer. -/
def clearCheck (stream : Nat → Bool) (s : DetState) : DetState :=
  if s.waitingClear then
    if 2 ≤ countHighReads stream s.idx 3 then
      { s with idx := s.idx + 3, clock := s.clock + 15,
               waitingClear := false, firstLow := none }
    else { s with idx := s.idx + 3, clock := s.clock + 15 }
  else s

/-- One iteration of the main detection loop (main.py:1289-1409).
`current_time` is sampled at the top; if `waiting_for_clear` and the
poll reads LOW the iteration sleeps 0.1 s and `continue`s, skipping
every check below; if it reads HIGH, `clearCheck` may clear the flag,
after which control falls through to the detection logic with the
original poll value. -/
def detectStep (cfg : DetCfg) (stream : Nat → Bool)
    (s : DetState) : DetResult ⊕ DetState :=
  if s.waitingClear && !(stream s.idx) then
    .inr { s with idx := s.idx + 1, clock := s.clock + 10 }
  else
    match applyDetection cfg (stream s.idx) s.clock
        (clearCheck stream { s with idx := s.idx + 1 }) with
    | .inl r => .inl r
    | .inr s3 => applyTimeouts cfg s.clock s3

/-- Fuel-bounded run of the main detection loop: `.inl r` means the
function returned `r`; `.inr s` means it is still looping after `fuel`
iterations. -/
def runDet (cfg : DetCfg) (stream : Nat → Bool) :
    Nat → DetState → DetResult ⊕ DetState
  | 0, s => .inr s
  | fuel + 1, s =>
    match detectStep cfg stream s with
    | .inl r => .inl r
    | .inr s' => runDet cfg stream fuel s'

/-- Pre-roll (main.py:1266-1283): up to 30 attempts to observe the
sensor stably HIGH (4 of 5 reads, 0.1 s apart) before the main loop;
proceeds anyway if never clear.  Returns the clock and read index at
main-loop entry.  Called with `fuel = 30` (`max_clear_checks`). -/
def preRollAux (stream : Nat → Bool) : Nat → Nat → Nat → Nat × Nat
  | 0, clock, idx => (clock, idx)
  | fuel + 1, clock, idx =>
    if stream idx then
      let stable := countHighReads stream (idx + 1) 5
      if 4 ≤ stable then (clock + 50, idx + 6)
      else preRollAux stream fuel (clock + 60) (idx + 6)
    else preRollAux stream fuel (clock + 10) (idx + 1)

/-- Post-inactivity bounded wait for the sensor to clear
(main.py:1375-1389): loop while less than 5 s (`max_clear_wait`) have
elapsed since `clear_wait_start`; a HIGH poll triggers a 5-read
stability check (0.1 s sleeps) and a stable HIGH breaks out.  The
result the enclosing function returns does not depend on this loop;
it only consumes time (boundedly) and readings.  `fuel = 60` exceeds
the at most 50 iterations the 5 s guard permits. -/
def clearWaitAux (stream : Nat → Bool) (start : Nat) :
    Nat → Nat → Nat → Nat × Nat
  | 0, clock, idx => (clock, idx)
  | fuel + 1, clock, idx =>
    if clock - start < 500 then
      if stream idx then
        if 4 ≤ countHighReads stream (idx + 1) 5 then (clock + 50, idx + 6)
        else clearWaitAux stream start fuel (clock + 60) (idx + 6)
      else clearWaitAux stream start fuel (clock + 10) (idx + 1)
    else (clock, idx)

/-- State at entry to the main detection loop: fresh locals
(main.py:1246-1257), clock and read index as left by the pre-roll.
The clock origin is `initial_start_time` (main.py:1253), so a faithful
configuration has `initialStart = 0`. -/
def detInitState (stream : Nat → Bool) : DetState :=
  { paperCount := 0, lastDetect := none, firstLow := none,
    waitingClear := false, clock := (preRollAux stream 30 0 0).1,
    idx := (preRollAux stream 30 0 0).2 }

/-- `wait_for_multiple_papers` (main.py:1230-1409): pre-roll, then the
main detection loop. -/
def wait_for_multiple_papers (cfg : DetCfg) (stream : Nat → Bool)
    (fuel : Nat) : DetResult ⊕ DetState :=
  runDet cfg stream fuel (detInitState stream)

/-- `paper_count` stays zero along the first `fuel` iterations of the
main loop started at `s` (the "no paper is ever detected" premise,
checkable by evaluation). -/
def noDetection (cfg : DetCfg) (stream : Nat → Bool) :
    Nat → DetState → Bool
  | 0, _ => true
  | fuel + 1, s =>
    match detectStep cfg stream s with
    | .inl _ => true
    | .inr s' => (s'.paperCount == 0) && noDetection cfg stream fuel s'

/-- A sensor that is stuck LOW (paper permanently blocking the beam). -/
def streamLowAll : Nat → Bool := fun _ => false

/-- Concrete configuration for the stuck-LOW scenario: 10 s inactivity
timeout, 30 s initial timeout, cap 10. -/
def cfgStuck : DetCfg := ⟨1000, 3000, 10, 0⟩

/-! ## A small model of Python values and exceptions

`sync.py` mixes up the result shapes of `APIClient`, so the embedding
needs enough dynamic typing to express `AttributeError` (calling
`.get`/`.lower` on a non-dict/non-string) and `TypeError` (calling a
function with the wrong number of positional arguments). -/

inductive PyErr where
  | attributeError
  | typeError
  | valueError
deriving Repr, DecidableEq

inductive PyVal where
  | pyNone
  | bool (b : Bool)
  | int (n : Int)
  | str (s : String)
  | dict (fields : List (String × PyVal))
  | tuple (items : List PyVal)

/-- Python truthiness. -/
def pyTruthy : PyVal → Bool
  | .pyNone => false
  | .bool b => b
  | .int n => n != 0
  | .str s => s != ""
  | .dict fs => !fs.isEmpty
  | .tuple xs => !xs.isEmpty

/-- `v.get(key)`: only dicts have a `get` method (returning `None` for a
missing key); on any other value the attribute lookup raises
`AttributeError`. -/
def pyGet (v : PyVal) (key : String) : Except PyErr PyVal :=
  match v with
  | .dict fs =>
    match fs.lookup key with
    | some x => .ok x
    | none => .ok .pyNone
  | _ => .error .attributeError

/-- `v.get(key, default)`. -/
def pyGetD (v : PyVal) (key : String) (dflt : PyVal) : Except PyErr PyVal :=
  match v with
  | .dict fs =>
    match fs.lookup key with
    | some x => .ok x
    | none => .ok dflt
  | _ => .error .attributeError

/-- `d[key] = x` on a dict value (used for `user_data['rfid_tag'] = ...`). -/
def pySet (v : PyVal) (key : String) (x : PyVal) : PyVal :=
  match v with
  | .dict fs => .dict ((key, x) :: fs.filter (fun kv => kv.1 != key))
  | other => other

/-- Binding positional arguments to a Python function's parameters:
an arity mismatch raises `TypeError` before the body runs. -/
def bindCall (params : List String) (args : List PyVal) :
    Except PyErr (List (String × PyVal)) :=
  if args.length = params.length then .ok (params.zip args)
  else .error .typeError

/-! ## `APIClient` (main.py:1064-1203) -/

/-- Outcome of one HTTP exchange as seen through the `requests`
library: a response with a status code and parsed JSON body, a
`requests.exceptions.Timeout`, or another
`requests.exceptions.RequestException`. -/
inductive HttpOutcome where
  | status (code : Nat) (body : PyVal)
  | timeout
  | requestError

/-- The `try` body of `APIClient._make_request` (main.py:1084-1103):
`(True, response.json())` on HTTP 200, `(False, None)` on any other
status, timeout, or request exception. -/
def requestResult (outcome : HttpOutcome) : Bool × Option PyVal :=
  match outcome with
  | .status code body => if code = 200 then (true, some body) else (false, none)
  | .timeout => (false, none)
  | .requestError => (false, none)

/-- `APIClient._make_request` (main.py:1077-1103).  The `endpoint` and
`data` arguments only shape the URL/payload, never the result; an
unsupported method raises `ValueError` from inside the `try`, which
neither `except` clause catches. -/
def make_request (method endpoint : String) (data : Option PyVal)
    (outcome : HttpOutcome) : Except PyErr (Bool × Option PyVal) :=
  let _ := endpoint
  let _ := data
  if method = "GET" || method = "POST" then .ok (requestResult outcome)
  else .error .valueError

/-- `APIClient.verify_rfid` (main.py:1105-1122): returns the Python
tuple `(True, data)` when the backend answered 200 with a truthy
`valid` field, else `(False, None)`.  A 200 body that is not a dict
makes `data.get("valid")` raise. -/
def verify_rfid (outcome : HttpOutcome) : Except PyErr PyVal :=
  match requestResult outcome with
  | (true, some data) =>
    match pyGet data "valid" with
    | .error e => .error e
    | .ok v =>
      if pyTruthy v then .ok (.tuple [.bool true, data])
      else .ok (.tuple [.bool false, .pyNone])
  | _ => .ok (.tuple [.bool false, .pyNone])

/-- `APIClient.mark_redemption_dispensed` (main.py:1183-1203). -/
def mark_redemption_dispensed (outcome : HttpOutcome) : Except PyErr Bool :=
  match requestResult outcome with
  | (true, some data) =>
    match pyGet data "success" with
    | .error e => .error e
    | .ok v => .ok (pyTruthy v)
  | _ => .ok false

/-! ## `SyncManager` (sync.py) -/

/-- Cache lookup fallback of `smart_verify_user` (sync.py:488-502):
`db.get_user_by_rfid` yields a row dict or `None`; an inactive cached
user is rejected. -/
def cacheLookup (cache : Option (List (String × PyVal))) :
    Bool × Option PyVal :=
  match cache with
  | some row =>
    let isActive := match row.lookup "is_active" with
      | some v => pyTruthy v
      | none => true
    if !isActive then (false, none)
    else (true, some (.dict row))
  | none => (false, none)

/-- The `try` block of `smart_verify_user`'s online branch
(sync.py:466-486).  `self.api.verify_rfid` is main.py's
`APIClient.verify_rfid`, which returns a *tuple*; the subsequent
`result.get('valid')` is an attribute lookup on that tuple. -/
def smartVerifyOnline (rfidTag : String) (outcome : HttpOutcome) :
    Except PyErr (Bool × Option PyVal) :=
  match verify_rfid outcome with
  | .error e => .error e
  | .ok result =>
    match pyGet result "valid" with
    | .error e => .error e
    | .ok v =>
      if pyTruthy v then
        match pyGetD result "user" (.dict []) with
        | .error e => .error e
        | .ok user => .ok (true, some (pySet user "rfid_tag" (.str rfidTag)))
      else .ok (false, none)

/-- `SyncManager.smart_verify_user` (sync.py:454-502): try the backend
when online, fall through to the cache on any exception, otherwise use
the cache directly. -/
def smart_verify_user (online : Bool) (rfidTag : String)
    (outcome : HttpOutcome) (cache : Option (List (String × PyVal))) :
    Bool × Option PyVal :=
  if online then
    match smartVerifyOnline rfidTag outcome with
    | .ok r => r
    | .error _ => cacheLookup cache
  else cacheLookup cache

/-- Positional parameters of `SyncManager.smart_submit_transaction`
(sync.py:504-505), `self` excluded. -/
def smartSubmitTransactionParams : List String :=
  ["rfid_tag", "weight", "metal_detected"]

/-- The call `self.sync.smart_submit_transaction(rfid_tag, paper_count)`
issued by `TransactionProcessor.process_transaction` (main.py:1574):
two positional arguments offered to a three-parameter function. -/
def orchestratorSubmitCall (rfidTag paperCount : PyVal) :
    Except PyErr (List (String × PyVal)) :=
  bindCall smartSubmitTransactionParams [rfidTag, paperCount]

/-- Result of the orchestrator's SUBMITTING phase as the spec's
Gateway contract sees it. -/
inductive SubmitOutcome where
  | accepted (points : Nat)
  | rejected (reason : String)
  | errorState
deriving Repr, DecidableEq

/-- The SUBMITTING step of `process_transaction` in the offline-capable
path (main.py:1572-1583): the exception raised by the argument binding
propagates to the catch-all at main.py:1668, which forces the ERROR
state.  Were the binding to succeed, the body of
`smart_submit_transaction` would run (abstracted by `body`). -/
def submissionStep (rfidTag paperCount : PyVal)
    (body : List (String × PyVal) → SubmitOutcome) : SubmitOutcome :=
  match orchestratorSubmitCall rfidTag paperCount with
  | .ok bound => body bound
  | .error _ => .errorState

/-! ## Redemption dispatcher (`RedemptionHandlerThread`) -/

/-- Does the character list start with the pattern? -/
def startsWithChars : List Char → List Char → Bool
  | _, [] => true
  | [], _ :: _ => false
  | a :: as, b :: bs => a == b && startsWithChars as bs

/-- Python's `pat in hay` on character lists. -/
def containsChars : List Char → List Char → Bool
  | [], pat => pat.isEmpty
  | a :: rest, pat => startsWithChars (a :: rest) pat || containsChars rest pat

/-- `extract_paper_count_from_reward_type` (main.py:1683-1709).
A falsy reward type defaults to 1; a truthy non-string value raises
`AttributeError` at `reward_type.lower()`. -/
def extract_paper_count_from_reward_type (rewardType : PyVal) :
    Except PyErr Nat :=
  if !pyTruthy rewardType then .ok 1
  else
    match rewardType with
    | .str s =>
      let lower := s.toList.map Char.toLower
      let contains := fun (pat : String) => containsChars lower pat.toList
      if contains "5 sheet" || contains " 5 " then .ok 5
      else if contains "1 sheet" || contains " 1 " then .ok 1
      else .ok 1
    | _ => .error .attributeError

/-- One work item of the poller path (main.py:1855-1918): duplicate
check and insertion under the lock, then reward parsing, LCD writes and
the dispense call (main.py:1864-1883, *outside* the `try`), then the
backend report inside `try ... finally discard`.  The LCD helper
swallows its own errors and `dispense_synchronized` catches every
exception in its body, so in this segment only the reward parsing can
raise.  Returns the updated processing set and the exception, if one
escaped. -/
def poller_process_item (redemptionId : Nat) (rewardType : PyVal)
    (dispenseOk : Bool) (markOutcome : HttpOutcome)
    (processing : Finset Nat) : Finset Nat × Option PyErr :=
  if redemptionId ∈ processing then (processing, none)
  else
    let locked := insert redemptionId processing
    match extract_paper_count_from_reward_type rewardType with
    | .error e => (locked, some e)
    | .ok _count =>
      let _ := dispenseOk
      let bodyErr : Option PyErr :=
        if dispenseOk then
          match mark_redemption_dispensed markOutcome with
          | .error e => some e
          | .ok _ => none
        else none
      (locked.erase redemptionId, bodyErr)

/-- `RedemptionHandlerThread.process_redemption_immediate`
(main.py:1935-2006): same mutual-exclusion set; reward parsing and the
LCD writes at main.py:1953-1968 run after the insertion but *before*
the `try` at main.py:1970; the dispense/report phase runs inside
`try ... finally discard`. -/
def process_redemption_immediate (redemptionId : Nat) (rewardType : PyVal)
    (dispenseOk : Bool) (markOutcome : HttpOutcome)
    (processing : Finset Nat) : Finset Nat × Except PyErr Bool :=
  if redemptionId ∈ processing then (processing, .ok false)
  else
    let locked := insert redemptionId processing
    match extract_paper_count_from_reward_type rewardType with
    | .error e => (locked, .error e)
    | .ok _count =>
      let body : Except PyErr Bool :=
        if dispenseOk then
          match mark_redemption_dispensed markOutcome with
          | .error e => .error e
          | .ok marked => .ok marked
        else .ok false
      (locked.erase redemptionId, body)

/-! ## RFID read and the exclusive-scan flag
(`HardwareManager.read_rfid`, main.py:644-790, and the identity-wait
step of `process_transaction`, main.py:1456-1485)

The shared `scan_request_active` flag is modelled by its value at each
point where the code samples it: at read entry, at the read thread's
per-attempt check (main.py:698), and at the monitor loop's periodic
checks (main.py:766). -/

/-- The `read_card` retry loop (main.py:680-747): up to 3 reader
attempts; after each blocking `read()` the thread samples the scan
flag and, if it is active, latches and discards the result; a `None`
tag (AUTH error) is retried.  Returns
`(result, latched, reads consumed)`. -/
def readCardAux (attempts : Nat → Option Nat) (threadFlag : Nat → Bool) :
    Nat → Nat → Option Nat × Bool × Nat
  | _, 0 => (none, false, 0)
  | k, r + 1 =>
    match attempts k with
    | some tag =>
      if threadFlag k then (none, true, 1) else (some tag, false, 1)
    | none =>
      if threadFlag k then (none, true, 1)
      else
        let rest := readCardAux attempts threadFlag (k + 1) r
        (rest.1, rest.2.1, rest.2.2 + 1)

/-- `HardwareManager.read_rfid` (main.py:663-790): abort with no reader
invocation if the scan flag is active at entry; otherwise run the read
thread while the monitor loop periodically samples the flag, and
discard the result whenever either the thread's check or a monitor
check observed the flag active.  Returns `(tag, reader invocations)`. -/
def read_rfid (flagAtStart : Bool) (attempts : Nat → Option Nat)
    (threadFlag : Nat → Bool) (monitorSamples : List Bool) :
    Option Nat × Nat :=
  if flagAtStart then (none, 0)
  else
    let r := readCardAux attempts threadFlag 0 3
    let latched := r.2.1 || monitorSamples.any id
    if latched then (none, r.2.2) else (r.1, r.2.2)

/-- The identity-wait step of `process_transaction` (main.py:1456-1485):
a final flag check before the read aborts the transaction with no read
attempted; after the read, a second check discards any tag obtained
while a scan request was starting. -/
def identity_wait (flagAtEntry : Bool) (flagAtStart : Bool)
    (attempts : Nat → Option Nat) (threadFlag : Nat → Bool)
    (monitorSamples : List Bool) (flagAfterRead : Bool) :
    Option Nat × Nat :=
  if flagAtEntry then (none, 0)
  else
    let r := read_rfid flagAtStart attempts threadFlag monitorSamples
    if flagAfterRead then (none, r.2)
    else r

/-! ## Actuator sequencer (`HardwareManager.dispense_synchronized`,
main.py:368-459)

Angles are rationals; `_set_servo_angle` (main.py:336-366) clamps to
[0, 180] before converting to a duty cycle, so the machine state keeps
the last clamped angle commanded to each servo.  A fault oracle says
which PWM commands raise; the `except` handler's own two idle commands
(main.py:455-456) have their own flags, mirroring the inner
`try/except: pass`. -/

/-- Servo angle constants from `config.py` (not vendored; parameters of
the model). -/
structure ServoCfg where
  start1 : ℚ
  end1 : ℚ
  idle1 : ℚ
  start2 : ℚ
  end2 : ℚ
  idle2 : ℚ
  step : ℚ
deriving Repr, DecidableEq

/-- Last commanded (clamped) angle of each servo. -/
structure ServoSt where
  a1 : ℚ
  a2 : ℚ
deriving Repr, DecidableEq

/-- Clamp to the valid 0-180 degree range (main.py:355). -/
def clampAngle (x : ℚ) : ℚ := max 0 (min 180 x)

/-- Python `int()` truncation toward zero on a rational. -/
def truncQ (q : ℚ) : Int := if q < 0 then -(Int.floor (-q)) else Int.floor q

/-- A PWM command: which servo (`true` = collection servo #1) and the
requested angle. -/
abbrev ServoCmd := Bool × ℚ

/-- Apply one `_set_servo_angle` call to the machine state. -/
def applyCmd (st : ServoSt) (c : ServoCmd) : ServoSt :=
  if c.1 then { st with a1 := clampAngle c.2 } else { st with a2 := clampAngle c.2 }

/-- Commands of one dispensing cycle (main.py:400-438): synchronized
stepping of servo #1 from `start1` toward `end1` (clamped with `max`)
and servo #2 from `start2` toward `end2` (clamped with `min`); between
cycles (but not after the last) both servos return to their start
angles. -/
def cycleCmds (cfg : ServoCfg) (c cycles : Nat) : List ServoCmd :=
  let angleRange : ℚ := |cfg.end1 - cfg.start1|
  let numSteps : Int := truncQ (angleRange / cfg.step)
  let steps := (List.range (numSteps + 1).toNat).flatMap (fun j =>
    [(true, max (cfg.start1 - j * cfg.step) cfg.end1),
     (false, min (cfg.start2 + j * cfg.step) cfg.end2)])
  steps ++ (if c + 1 < cycles then [(true, cfg.start1), (false, cfg.start2)] else [])

/-- The whole command sequence of the `try` body (main.py:390-447):
move to start positions, run the cycles, and return both servos to the
idle position before `return True`. -/
def bodyCmds (cfg : ServoCfg) (cycles : Nat) : List ServoCmd :=
  [(true, cfg.start1), (false, cfg.start2)]
    ++ (List.range cycles).flatMap (fun c => cycleCmds cfg c cycles)
    ++ [(true, cfg.idle1), (false, cfg.idle2)]

/-- Run commands in order; command number `i` (a global counter) raises
when `fault i` is true, aborting the remainder.  Returns the state,
the next counter value, and whether all commands succeeded. -/
def runCmds (fault : Nat → Bool) : Nat → ServoSt → List ServoCmd →
    ServoSt × Nat × Bool
  | i, st, [] => (st, i, true)
  | i, st, c :: cs =>
    if fault i then (st, i, false)
    else runCmds fault (i + 1) (applyCmd st c) cs

/-- `HardwareManager.dispense_synchronized` (main.py:368-459) for
initialized servos: run the `try` body; on an exception, the handler
attempts to command both servos back to idle, each attempt itself
guarded by `try/except: pass` (`faultCleanup1`/`faultCleanup2` say
whether those two commands raise).  Returns the final machine state
and the function's boolean result. -/
def dispense_synchronized (cfg : ServoCfg) (cycles : Nat)
    (fault : Nat → Bool) (faultCleanup1 faultCleanup2 : Bool)
    (st : ServoSt) : ServoSt × Bool :=
  match runCmds fault 0 st (bodyCmds cfg cycles) with
  | (st', _, true) => (st', true)
  | (st', _, false) =>
    let st1 := if faultCleanup1 then st' else applyCmd st' (true, cfg.idle1)
    let st2 := if faultCleanup1 then st1
      else if faultCleanup2 then st1 else applyCmd st1 (false, cfg.idle2)
    (st2, false)

/-! ## Theorems -/

/-- Claim C10: for every method in GET/POST, endpoint and payload,
`_make_request` returns `(True, parsed body)` on HTTP 200 and
`(False, None)` on any non-200 status, timeout, or transport failure,
never letting an exception escape. -/
theorem make_request_error_handling (method endpoint : String)
    (data : Option PyVal) (outcome : HttpOutcome)
    (hm : method = "GET" ∨ method = "POST") :
    make_request method endpoint data outcome = .ok (requestResult outcome)
    ∧ (∀ body, requestResult (.status 200 body) = (true, some body))
    ∧ (∀ code body, code ≠ 200 → requestResult (.status code body) = (false, none))
    ∧ requestResult .timeout = (false, none)
    ∧ requestResult .requestError = (false, none) := by
  refine ⟨?_, fun body => rfl, fun code body hc => ?_, rfl, rfl⟩
  · rcases hm with h | h <;> simp [make_request, h]
  · simp [requestResult, hc]

/-- Witness for C10 at a concrete request. -/
theorem make_request_error_handling_witness :
    make_request "POST" "transaction/submit"
        (some (.dict [("paperCount", .int 3)])) .timeout = .ok (false, none) := by
  have h := make_request_error_handling "POST" "transaction/submit"
    (some (.dict [("paperCount", .int 3)])) .timeout (Or.inr rfl)
  exact h.1.trans rfl

/-- `pyGet` on any tuple raises `AttributeError`: tuples have no `get`
method. -/
theorem pyGet_tuple (xs : List PyVal) (key : String) :
    pyGet (.tuple xs) key = .error .attributeError := rfl

/-- `pyGet` can only fail with `AttributeError`. -/
theorem pyGet_error (v : PyVal) (key : String) (e : PyErr)
    (h : pyGet v key = .error e) : e = .attributeError := by
  unfold pyGet at h
  split at h
  · split at h <;> exact absurd h (by simp)
  · injection h with h
    exact h.symm

/-- When `verify_rfid` raises, the exception is the `AttributeError`
from `data.get` on a non-dict body. -/
theorem verify_rfid_error (outcome : HttpOutcome) (e : PyErr)
    (h : verify_rfid outcome = .error e) : e = .attributeError := by
  unfold verify_rfid at h
  split at h
  · split at h
    · cases h
      exact pyGet_error _ _ _ (by assumption)
    · split at h <;> exact absurd h (by simp)
  · exact absurd h (by simp)

/-- When `verify_rfid` returns normally, the value is the Python tuple
`(success, data)`. -/
theorem verify_rfid_ok (outcome : HttpOutcome) (r : PyVal)
    (h : verify_rfid outcome = .ok r) : ∃ xs, r = .tuple xs := by
  unfold verify_rfid at h
  split at h
  · split at h
    · exact absurd h (by simp)
    · split at h <;> (injection h with h; exact ⟨_, h.symm⟩)
  · injection h with h
    exact ⟨_, h.symm⟩

/-- The online branch of `smart_verify_user` always raises: either the
200 body is not a dict (so `verify_rfid` itself raises), or
`verify_rfid` returns its `(success, data)` tuple and
`result.get('valid')` raises `AttributeError` on it. -/
theorem smartVerifyOnline_raises (rfidTag : String) (outcome : HttpOutcome) :
    smartVerifyOnline rfidTag outcome = .error .attributeError := by
  unfold smartVerifyOnline
  cases hk : verify_rfid outcome with
  | error e => rw [verify_rfid_error outcome e hk]
  | ok result =>
    obtain ⟨xs, rfl⟩ := verify_rfid_ok outcome result hk
    rfl

/-- `smart_verify_user` never returns user data from the online path:
`APIClient.verify_rfid` returns a `(success, data)` tuple, `sync.py`
treats it as a dict, the resulting `AttributeError` is swallowed by
the `except` clause, and the function falls back to the cache for
*every* backend outcome. -/
theorem smart_verify_user_always_falls_back (online : Bool)
    (rfidTag : String) (outcome : HttpOutcome)
    (cache : Option (List (String × PyVal))) :
    smart_verify_user online rfidTag outcome cache = cacheLookup cache := by
  cases online with
  | false => rfl
  | true => simp [smart_verify_user, smartVerifyOnline_raises]

/-- Claim C3 (refuted by the code — a bug in sync.py): at a concrete
failing input the backend is online and answers HTTP 200 with
`valid: true` and user data, the cache is empty, and yet verification
returns `(False, None)`: the online path never produces the backend's
user data, contradicting "if the backend reports the tag valid,
returns (valid, that user's data) from the online path". -/
theorem smart_verify_user_failing_input :
    smart_verify_user true "1234567890"
      (.status 200 (.dict
        [("valid", .bool true),
         ("user", .dict [("name", .str "Kim"), ("current_points", .int 120)])]))
      none = (false, none) := by
  have h := smart_verify_user_always_falls_back true "1234567890"
    (.status 200 (.dict
      [("valid", .bool true),
       ("user", .dict [("name", .str "Kim"), ("current_points", .int 120)])]))
    none
  exact h.trans rfl

/-- Claim C4 (refuted by the code): the orchestrator's
`smart_submit_transaction(rfid_tag, paper_count)` call offers two
positional arguments to sync.py's three-parameter
`(rfid_tag, weight, metal_detected)` signature, so the call itself
raises `TypeError`; the catch-all at main.py:1668 then forces the
ERROR state.  No Accepted/Rejected result is ever produced, whatever
the submission body would have done. -/
theorem submit_call_raises_type_error (rfidTag paperCount : PyVal)
    (body : List (String × PyVal) → SubmitOutcome) :
    orchestratorSubmitCall rfidTag paperCount = .error .typeError
    ∧ submissionStep rfidTag paperCount body = .errorState := by
  exact ⟨rfl, rfl⟩

/-- A successful run of a command list ending in the two idle commands
leaves servo #1 at the clamped `q1` and servo #2 at the clamped `q2`. -/
theorem runCmds_last_two (fault : Nat → Bool) (q1 q2 : ℚ) :
    ∀ (zs : List ServoCmd) (i : Nat) (st st' : ServoSt) (n : Nat),
      runCmds fault i st (zs ++ [(true, q1), (false, q2)]) = (st', n, true) →
      st'.a1 = clampAngle q1 ∧ st'.a2 = clampAngle q2 := by
  intro zs
  induction zs with
  | nil =>
    intro i st st' n h
    simp only [List.nil_append, runCmds] at h
    split at h
    · exact absurd h (by simp)
    · split at h
      · exact absurd h (by simp)
      · obtain ⟨h1, -, -⟩ := Prod.mk.injEq .. ▸ h
        subst h1
        exact ⟨by simp [applyCmd], by simp [applyCmd]⟩
  | cons c zs ih =>
    intro i st st' n h
    simp only [List.cons_append, runCmds] at h
    split at h
    · exact absurd h (by simp)
    · exact ih _ _ _ _ h

/-- Claim C9: after `dispense_synchronized(cycles=n)` for any `n ≥ 0`,
both actuators end commanded to the (clamped) idle angle, whether the
cycle sequence completed or a fault aborted it mid-cycle (the `except`
handler's own idle commands succeeding, which is what "fault occurs
mid-cycle" means). -/
theorem dispense_synchronized_ends_idle (cfg : ServoCfg) (cycles : Nat)
    (fault : Nat → Bool) (st : ServoSt) :
    (dispense_synchronized cfg cycles fault false false st).1.a1
        = clampAngle cfg.idle1
    ∧ (dispense_synchronized cfg cycles fault false false st).1.a2
        = clampAngle cfg.idle2 := by
  unfold dispense_synchronized
  have hb : bodyCmds cfg cycles =
      ([(true, cfg.start1), (false, cfg.start2)]
        ++ (List.range cycles).flatMap (fun c => cycleCmds cfg c cycles))
      ++ [(true, cfg.idle1), (false, cfg.idle2)] := by
    simp [bodyCmds, List.append_assoc]
  rcases hr : runCmds fault 0 st (bodyCmds cfg cycles) with ⟨st', n, ok⟩
  cases ok with
  | true =>
    rw [hb] at hr
    have h := runCmds_last_two fault cfg.idle1 cfg.idle2 _ _ _ _ _ hr
    simpa using h
  | false =>
    simp [applyCmd]

/-- C5 counterexample: a redemption whose `rewardType` is the JSON
number 5 (truthy, not a string) makes
`extract_paper_count_from_reward_type` raise `AttributeError` at
`reward_type.lower()` *after* the id was inserted into the processing
set but *before* the `try/finally`, so the id is never removed: both
handler paths leave the set equal to `{1}`. -/
theorem redemption_leak_counterexample :
    process_redemption_immediate 1 (.int 5) true
        (.status 200 (.dict [("success", .bool true)])) ∅
      = ({1}, .error .attributeError)
    ∧ poller_process_item 1 (.int 5) true
        (.status 200 (.dict [("success", .bool true)])) ∅
      = ({1}, some .attributeError)
    ∧ (1 : Nat) ∈ ({1} : Finset Nat) := by
  refine ⟨rfl, rfl, by decide⟩

/-- Claim C5 as amended: if the segment between the set-insertion and
the `try` does not raise (equivalently, the reward-type parse
succeeds), then the id is removed from the processing set when
processing finishes — on success, on failure, and on any exception
raised inside the dispense/report phase — in both the poller path and
the immediate path. -/
theorem redemption_removed_amended (redemptionId : Nat)
    (rewardType : PyVal) (dispenseOk : Bool) (markOutcome : HttpOutcome)
    (processing : Finset Nat)
    (hmem : redemptionId ∉ processing)
    (hok : ∃ cnt, extract_paper_count_from_reward_type rewardType = .ok cnt) :
    redemptionId ∉
      (poller_process_item redemptionId rewardType dispenseOk markOutcome
        processing).1
    ∧ redemptionId ∉
      (process_redemption_immediate redemptionId rewardType dispenseOk
        markOutcome processing).1 := by
  obtain ⟨cnt, hok⟩ := hok
  unfold poller_process_item process_redemption_immediate
  simp [hmem, hok, Finset.not_mem_erase]

/-- Witness for C5's amended theorem at a concrete work item. -/
theorem redemption_removed_amended_witness :
    (7 : Nat) ∉ (poller_process_item 7 (.str "Yellow Paper (5 sheets)")
        true .timeout ∅).1
    ∧ (7 : Nat) ∉ (process_redemption_immediate 7
        (.str "Yellow Paper (5 sheets)") true .timeout ∅).1 := by
  exact redemption_removed_amended 7 (.str "Yellow Paper (5 sheets)")
    true .timeout ∅ (by decide) ⟨5, by rfl⟩

/-- Claim C6: exclusivity of the scan request over identity reads.
(a) active at entry to the identity-wait step: the orchestrator aborts
with zero reader invocations; (b) active at `read_rfid` entry: zero
invocations; a flag observation at the read thread's per-attempt
check, at any monitor-loop sample, or at the orchestrator's post-read
check discards the read result — no tag is consumed. -/
theorem scan_exclusivity (attempts : Nat → Option Nat)
    (threadFlag : Nat → Bool) (monitorSamples : List Bool)
    (flagAtStart flagAfterRead : Bool) :
    (∀ fs, identity_wait true fs attempts threadFlag monitorSamples
        flagAfterRead = (none, 0))
    ∧ read_rfid true attempts threadFlag monitorSamples = (none, 0)
    ∧ (monitorSamples.any id = true →
        (identity_wait false flagAtStart attempts threadFlag monitorSamples
          flagAfterRead).1 = none)
    ∧ (flagAfterRead = true →
        (identity_wait false flagAtStart attempts threadFlag monitorSamples
          flagAfterRead).1 = none)
    ∧ ((readCardAux attempts threadFlag 0 3).2.1 = true →
        (identity_wait false flagAtStart attempts threadFlag monitorSamples
          flagAfterRead).1 = none) := by
  refine ⟨fun fs => rfl, rfl, ?_, ?_, ?_⟩
  · intro hms
    cases flagAtStart <;> cases flagAfterRead <;>
      simp [identity_wait, read_rfid, hms]
  · intro hfp
    subst hfp
    cases flagAtStart <;> simp [identity_wait, read_rfid]
  · intro hl
    cases flagAtStart <;> cases flagAfterRead <;>
      simp [identity_wait, read_rfid, hl]

/-- Witness for C6 at a concrete reader and flag trace. -/
theorem scan_exclusivity_witness :
    (List.any [true] id = true)
    ∧ (identity_wait false false (fun _ => some 42) (fun _ => false)
        [true] false).1 = none := by
  refine ⟨rfl, ?_⟩
  exact (scan_exclusivity (fun _ => some 42) (fun _ => false) [true]
    false false).2.2.1 rfl

/-! ### Detector step characterizations -/

/-- `clearCheck` never touches the count or the last-detection time and
never rewinds the clock. -/
theorem clearCheck_fields (stream : Nat → Bool) (s : DetState) :
    (clearCheck stream s).paperCount = s.paperCount
    ∧ (clearCheck stream s).lastDetect = s.lastDetect
    ∧ s.clock ≤ (clearCheck stream s).clock := by
  unfold clearCheck
  split
  · split
    · exact ⟨rfl, rfl, Nat.le_add_right _ _⟩
    · exact ⟨rfl, rfl, Nat.le_add_right _ _⟩
  · exact ⟨rfl, rfl, Nat.le_refl _⟩

/-- Without the `waiting_for_clear` flag, `clearCheck` is the identity. -/
theorem clearCheck_not_waiting (stream : Nat → Bool) (s : DetState)
    (h : s.waitingClear = false) : clearCheck stream s = s := by
  unfold clearCheck
  simp [h]

/-- The only early exit of the detection logic is the max-papers
`break` (Python `None`): it requires a LOW poll completing the
debounce with the cap reached. -/
theorem applyDetection_inl (cfg : DetCfg) (raw : Bool) (t : Nat)
    (s : DetState) (r : DetResult)
    (h : applyDetection cfg raw t s = .inl r) :
    r = none ∧ cfg.maxPapers ≤ s.paperCount + 1 ∧ raw = false := by
  unfold applyDetection at h
  split at h
  · split at h
    · split at h
      · exact ⟨by injection h with h; exact h.symm, by assumption, by assumption⟩
      · exact absurd h (by simp)
    · exact absurd h (by simp)
  · exact absurd h (by simp)

/-- Continuing through the detection logic either leaves the count,
last-detection time and flag unchanged, or counts exactly one paper
below the cap, stamping the poll time and raising the flag.  Clock and
read index are untouched. -/
theorem applyDetection_inr (cfg : DetCfg) (raw : Bool) (t : Nat)
    (s s' : DetState) (h : applyDetection cfg raw t s = .inr s') :
    s'.clock = s.clock ∧ s'.idx = s.idx
    ∧ ((s'.paperCount = s.paperCount ∧ s'.lastDetect = s.lastDetect
          ∧ s'.waitingClear = s.waitingClear)
       ∨ (raw = false ∧ s'.paperCount = s.paperCount + 1
          ∧ ¬ cfg.maxPapers ≤ s.paperCount + 1
          ∧ s'.lastDetect = some t ∧ s'.waitingClear = true)) := by
  unfold applyDetection at h
  split at h
  · split at h
    · split at h
      · exact absurd h (by simp)
      · injection h with h
        subst h
        exact ⟨rfl, rfl, Or.inr ⟨by assumption, rfl, by assumption, rfl, rfl⟩⟩
    · injection h with h
      subst h
      exact ⟨rfl, rfl, Or.inl ⟨rfl, rfl, rfl⟩⟩
  · injection h with h
    subst h
    exact ⟨rfl, rfl, Or.inl ⟨rfl, rfl, rfl⟩⟩

/-- A LOW poll that does not complete the debounce window only records
the candidate start time. -/
theorem applyDetection_low_short (cfg : DetCfg) (t : Nat) (s : DetState)
    (h : t - s.firstLow.getD t < IR_DETECTION_TIME) :
    applyDetection cfg false t s = .inr { s with firstLow := some (s.firstLow.getD t) } := by
  unfold applyDetection
  rw [if_pos rfl, if_neg (by omega)]

/-- A HIGH poll resets the candidate timer (bounce rejection). -/
theorem applyDetection_high (cfg : DetCfg) (t : Nat) (s : DetState) :
    applyDetection cfg true t s = .inr { s with firstLow := none } := by
  unfold applyDetection
  rw [if_neg (by simp)]

/-- A LOW poll completing the debounce below the cap counts one paper. -/
theorem applyDetection_low_count (cfg : DetCfg) (t : Nat) (s : DetState)
    (u : Nat) (hfl : s.firstLow = some u) (hd : IR_DETECTION_TIME ≤ t - u)
    (hcap : ¬ cfg.maxPapers ≤ s.paperCount + 1) :
    applyDetection cfg false t s =
      .inr { s with paperCount := s.paperCount + 1, lastDetect := some t,
                    waitingClear := true, firstLow := none } := by
  unfold applyDetection
  rw [if_pos rfl, hfl]
  simp only [Option.getD_some]
  rw [if_pos hd, if_neg hcap]

/-- The loop continues past the timeout checks exactly by sleeping
0.1 s. -/
theorem applyTimeouts_inr (cfg : DetCfg) (t : Nat) (s s' : DetState)
    (h : applyTimeouts cfg t s = .inr s') :
    s' = { s with clock := s.clock + 10 } := by
  unfold applyTimeouts at h
  split at h
  · split at h <;> exact absurd h (by simp)
  · split at h
    · exact absurd h (by simp)
    · injection h with h
      exact h.symm

/-- `inactivityHit` with no detection yet. -/
theorem inactivityHit_none (cfg : DetCfg) (t : Nat) (s : DetState)
    (h : s.lastDetect = none) : inactivityHit cfg t s = false := by
  unfold inactivityHit
  rw [h]

/-- `inactivityHit` after a detection at time `u`. -/
theorem inactivityHit_some (cfg : DetCfg) (t : Nat) (s : DetState)
    (u : Nat) (h : s.lastDetect = some u) :
    inactivityHit cfg t s = decide (cfg.inactivityTimeout ≤ t - u) := by
  unfold inactivityHit
  rw [h]

/-- Every return from the timeout checks is an inactivity-timeout
return — `(True, paper_count)` with a positive count, or `(False, 0)`
with a zero count — or the initial-timeout `(False, 0)`. -/
theorem applyTimeouts_inl (cfg : DetCfg) (t : Nat) (s : DetState)
    (r : DetResult) (h : applyTimeouts cfg t s = .inl r) :
    (∃ u, s.lastDetect = some u ∧ cfg.inactivityTimeout ≤ t - u
      ∧ ((r = some (true, s.paperCount) ∧ 0 < s.paperCount)
         ∨ (r = some (false, 0) ∧ s.paperCount = 0)))
    ∨ (r = some (false, 0) ∧ s.paperCount = 0 ∧ s.lastDetect = none
        ∧ cfg.initialTimeout ≤ t - cfg.initialStart) := by
  unfold applyTimeouts at h
  split at h
  case isTrue hhit =>
    left
    rcases hld : s.lastDetect with - | u
    · rw [inactivityHit_none cfg t s hld] at hhit
      exact absurd hhit (by simp)
    · rw [inactivityHit_some cfg t s u hld] at hhit
      refine ⟨u, rfl, by simpa using hhit, ?_⟩
      split at h
      · exact Or.inl ⟨by injection h with h; exact h.symm, by assumption⟩
      · exact Or.inr ⟨by injection h with h; exact h.symm, by omega⟩
  case isFalse hhit =>
    split at h
    case isTrue hcond =>
      simp only [Bool.and_eq_true, decide_eq_true_eq] at hcond
      exact Or.inr ⟨by injection h with h; exact h.symm, hcond.1.1,
        by simpa using hcond.1.2, hcond.2⟩
    case isFalse => exact absurd h (by simp)

/-- When the inactivity window has elapsed since the last detection
and at least one paper was counted, the timeout checks return
`(True, paper_count)`. -/
theorem applyTimeouts_hit (cfg : DetCfg) (t : Nat) (s : DetState)
    (u : Nat) (hld : s.lastDetect = some u)
    (hto : cfg.inactivityTimeout ≤ t - u) (hpc : 0 < s.paperCount) :
    applyTimeouts cfg t s = .inl (some (true, s.paperCount)) := by
  unfold applyTimeouts
  rw [if_pos (show inactivityHit cfg t s = true by
        rw [inactivityHit_some cfg t s u hld]; simpa using hto),
      if_pos hpc]

/-- When neither timeout condition holds, the loop continues. -/
theorem applyTimeouts_not_hit (cfg : DetCfg) (t : Nat) (s : DetState)
    (h1 : ∀ u, s.lastDetect = some u → t - u < cfg.inactivityTimeout)
    (h2 : s.paperCount = 0 → s.lastDetect = none →
      t - cfg.initialStart < cfg.initialTimeout) :
    applyTimeouts cfg t s = .inr { s with clock := s.clock + 10 } := by
  unfold applyTimeouts
  rw [if_neg, if_neg]
  · intro hcond
    simp only [Bool.and_eq_true, decide_eq_true_eq] at hcond
    have := h2 hcond.1.1 (by simpa using hcond.1.2)
    omega
  · rcases hld : s.lastDetect with - | u
    · simp [inactivityHit_none cfg t s hld]
    · have := h1 u hld
      rw [inactivityHit_some cfg t s u hld]
      simp only [decide_eq_true_eq]
      omega

/-- A fuel-bounded run that returns did so through a final
`detectStep` that returned. -/
theorem runDet_inl_step (cfg : DetCfg) (stream : Nat → Bool) :
    ∀ (fuel : Nat) (s : DetState) (r : DetResult),
      runDet cfg stream fuel s = .inl r →
      ∃ s0, detectStep cfg stream s0 = .inl r := by
  intro fuel
  induction fuel with
  | zero =>
    intro s r h
    exact absurd h (by simp [runDet])
  | succ f ih =>
    intro s r h
    rw [runDet] at h
    rcases hstep : detectStep cfg stream s with r' | s'
    · rw [hstep] at h
      injection h with h
      exact ⟨s, by rw [hstep, h]⟩
    · rw [hstep] at h
      exact ih s' r h

/-- Unfolding one continuing iteration of the run. -/
theorem runDet_succ_inr (cfg : DetCfg) (stream : Nat → Bool)
    (fuel : Nat) (s s' : DetState)
    (hstep : detectStep cfg stream s = .inr s') :
    runDet cfg stream (fuel + 1) s = runDet cfg stream fuel s' := by
  rw [runDet, hstep]

/-- A continuing iteration advances the clock by at least one poll
period and either keeps the count or counts exactly one paper strictly
below the cap. -/
theorem detectStep_inr_cases (cfg : DetCfg) (stream : Nat → Bool)
    (s s' : DetState) (h : detectStep cfg stream s = .inr s') :
    s.clock + 10 ≤ s'.clock
    ∧ (s'.paperCount = s.paperCount
       ∨ (s'.paperCount = s.paperCount + 1 ∧ ¬ cfg.maxPapers ≤ s'.paperCount)) := by
  unfold detectStep at h
  split at h
  · injection h with h
    subst h
    exact ⟨Nat.le_refl _, Or.inl rfl⟩
  · split at h
    · exact absurd h (by simp)
    · rename_i s3 heq
      obtain ⟨hc1, hc2, hc3⟩ := clearCheck_fields stream { s with idx := s.idx + 1 }
      obtain ⟨hd1, hd2, hd3⟩ := applyDetection_inr _ _ _ _ _ heq
      have ht := applyTimeouts_inr _ _ _ _ h
      subst ht
      dsimp only at hc1 hc2 hc3 hd1 ⊢
      refine ⟨by omega, ?_⟩
      rcases hd3 with ⟨hp, -, -⟩ | ⟨-, hp, hcap, -, -⟩
      · exact Or.inl (by rw [hp, hc1])
      · refine Or.inr ⟨by rw [hp, hc1], ?_⟩
        rw [hp, hc1]
        rw [hc1] at hcap
        exact hcap

/-- Every returned `(success, count)` tuple is either a success with
the positive accumulated count (at most one above the entry count and
then strictly below the cap) or the failure `(False, 0)`. -/
theorem detectStep_inl_some (cfg : DetCfg) (stream : Nat → Bool)
    (s : DetState) (b : Bool) (n : Nat)
    (h : detectStep cfg stream s = .inl (some (b, n))) :
    (b = true ∧ 0 < n
      ∧ (n = s.paperCount ∨ (n = s.paperCount + 1 ∧ ¬ cfg.maxPapers ≤ n)))
    ∨ (b = false ∧ n = 0) := by
  unfold detectStep at h
  split at h
  · exact absurd h (by simp)
  · split at h
    · rename_i r' heq
      obtain ⟨hr, -, -⟩ := applyDetection_inl _ _ _ _ _ heq
      subst hr
      injection h with h
      exact absurd h (by simp)
    · rename_i s3 heq
      obtain ⟨hc1, hc2, hc3⟩ := clearCheck_fields stream { s with idx := s.idx + 1 }
      obtain ⟨hd1, hd2, hd3⟩ := applyDetection_inr _ _ _ _ _ heq
      dsimp only at hc1 hc2
      rcases applyTimeouts_inl _ _ _ _ h with ⟨u, hld, hto, hres⟩ | ⟨hr, hp0, -, -⟩
      · rcases hres with ⟨hr, hp⟩ | ⟨hr, hp⟩
        · injection hr with hr
          obtain ⟨hb, hn⟩ := Prod.mk.injEq .. ▸ hr
          subst hb
          refine Or.inl ⟨rfl, by omega, ?_⟩
          rcases hd3 with ⟨hp3, -, -⟩ | ⟨-, hp3, hcap, -, -⟩
          · exact Or.inl (by rw [hn, hp3, hc1])
          · refine Or.inr ⟨by rw [hn, hp3, hc1], ?_⟩
            rw [hn, hp3, hc1]
            rw [hc1] at hcap
            exact hcap
        · injection hr with hr
          obtain ⟨hb, hn⟩ := Prod.mk.injEq .. ▸ hr
          exact Or.inr ⟨hb, hn⟩
      · injection hr with hr
        obtain ⟨hb, hn⟩ := Prod.mk.injEq .. ▸ hr
        exact Or.inr ⟨hb, hn⟩

/-- Runs started below the cap (or at zero) return counts within the
cap, and a success flag implies a positive count. -/
theorem runDet_count_le (cfg : DetCfg) (stream : Nat → Bool) :
    ∀ (fuel : Nat) (s : DetState),
      (s.paperCount < cfg.maxPapers ∨ s.paperCount = 0) →
      ∀ (b : Bool) (n : Nat),
        runDet cfg stream fuel s = .inl (some (b, n)) →
        n ≤ cfg.maxPapers ∧ (b = true → 1 ≤ n) := by
  intro fuel
  induction fuel with
  | zero =>
    intro s hinv b n h
    exact absurd h (by simp [runDet])
  | succ f ih =>
    intro s hinv b n h
    rw [runDet] at h
    rcases hstep : detectStep cfg stream s with r' | s'
    · rw [hstep] at h
      injection h with h
      subst h
      rcases detectStep_inl_some _ _ _ _ _ hstep with ⟨hb, hn0, hcase⟩ | ⟨hb, hn⟩
      · subst hb
        refine ⟨?_, fun _ => hn0⟩
        rcases hcase with hn | ⟨hn, hcap⟩
        · rcases hinv with hlt | h0 <;> omega
        · omega
      · subst hb
        subst hn
        exact ⟨Nat.zero_le _, fun hh => nomatch hh⟩
    · rw [hstep] at h
      have hnext := detectStep_inr_cases _ _ _ _ hstep
      refine ih s' ?_ b n h
      rcases hnext.2 with hp | ⟨hp, hcap⟩
      · rw [hp]
        exact hinv
      · left
        omega

/-- Claim C8: on every sensor-reading sequence the count returned by
`wait_for_multiple_papers` never exceeds `MAX_PAPERS_PER_TRANSACTION`,
and the iteration whose debounced LOW detection reaches the cap exits
the loop at once (consuming no further readings; the source's `break`
makes Python return `None`). -/
theorem paper_count_respects_cap (cfg : DetCfg) :
    (∀ (stream : Nat → Bool) (fuel : Nat) (b : Bool) (n : Nat),
      wait_for_multiple_papers cfg stream fuel = .inl (some (b, n)) →
      n ≤ cfg.maxPapers)
    ∧ (∀ (stream : Nat → Bool) (s : DetState) (u : Nat),
      s.waitingClear = false → stream s.idx = false →
      s.firstLow = some u → IR_DETECTION_TIME ≤ s.clock - u →
      cfg.maxPapers ≤ s.paperCount + 1 →
      detectStep cfg stream s = .inl none) := by
  constructor
  · intro stream fuel b n h
    exact (runDet_count_le cfg stream fuel (detInitState stream)
      (Or.inr rfl) b n h).1
  · intro stream s u hw hlow hfl hd hcap
    have happ : applyDetection cfg false s.clock { s with idx := s.idx + 1 }
        = .inl none := by
      unfold applyDetection
      rw [if_pos rfl]
      dsimp only
      rw [hfl]
      simp only [Option.getD_some]
      rw [if_pos hd, if_pos hcap]
    unfold detectStep
    have hcond : (s.waitingClear && !(stream s.idx)) = false := by
      rw [hw, Bool.false_and]
    rw [hcond]
    simp only [Bool.false_eq_true, if_false]
    rw [hlow, clearCheck_not_waiting stream { s with idx := s.idx + 1 }
      (by exact hw), happ]

/-- Witness for C8 at a concrete run (cap 2, one paper accepted before
the inactivity return) and a concrete cap-reaching state. -/
theorem paper_count_respects_cap_witness :
    wait_for_multiple_papers ⟨50, 3000, 2, 0⟩ (fun k => k < 6 || 8 < k) 7
      = .inl (some (true, 1))
    ∧ (1 : Nat) ≤ 2
    ∧ detectStep ⟨50, 3000, 2, 0⟩ (fun _ => false)
        ⟨1, some 0, some 0, false, 20, 5⟩ = .inl none := by
  refine ⟨by decide, ?_, ?_⟩
  · exact (paper_count_respects_cap ⟨50, 3000, 2, 0⟩).1
      (fun k => k < 6 || 8 < k) 7 true 1 (by decide)
  · exact (paper_count_respects_cap ⟨50, 3000, 2, 0⟩).2
      (fun _ => false) ⟨1, some 0, some 0, false, 20, 5⟩ 0
      rfl rfl rfl (by decide) (by decide)

/-- One iteration from a state with no paper counted yet: either the
initial-timeout failure `(False, 0)` fires, or the loop continues with
the clock advanced one poll period; a continuing state with count zero
still has no detection recorded and no `waiting_for_clear`, and if the
initial deadline had already passed, the iteration must have counted a
paper. -/
theorem detectStep_zero_state (cfg : DetCfg) (stream : Nat → Bool)
    (s : DetState) (hw : s.waitingClear = false) (hc : s.paperCount = 0)
    (hld : s.lastDetect = none) (hmax : 2 ≤ cfg.maxPapers)
    (hin : 1 ≤ cfg.inactivityTimeout) :
    detectStep cfg stream s = .inl (some (false, 0))
    ∨ (∃ s', detectStep cfg stream s = .inr s' ∧ s'.clock = s.clock + 10
        ∧ (s'.paperCount = 0 → s'.lastDetect = none ∧ s'.waitingClear = false)
        ∧ (cfg.initialStart + cfg.initialTimeout ≤ s.clock →
            0 < s'.paperCount)) := by
  unfold detectStep
  have hcond : (s.waitingClear && !(stream s.idx)) = false := by
    rw [hw, Bool.false_and]
  rw [hcond]
  simp only [Bool.false_eq_true, if_false]
  rw [clearCheck_not_waiting stream { s with idx := s.idx + 1 } (by exact hw)]
  rcases happ : applyDetection cfg (stream s.idx) s.clock
      { s with idx := s.idx + 1 } with r | s3
  · obtain ⟨-, hcap, -⟩ := applyDetection_inl _ _ _ _ _ happ
    dsimp only at hcap
    rw [hc] at hcap
    exact absurd hcap (by omega)
  · dsimp only
    obtain ⟨hd1, hd2, hd3⟩ := applyDetection_inr _ _ _ _ _ happ
    dsimp only at hd1 hd2 hd3
    rcases hd3 with ⟨hp, hl, hwc⟩ | ⟨-, hp, -, hl, hwc⟩
    · have hp0 : s3.paperCount = 0 := by rw [hp, hc]
      have hl0 : s3.lastDetect = none := by rw [hl, hld]
      by_cases hto : cfg.initialTimeout ≤ s.clock - cfg.initialStart
      · left
        unfold applyTimeouts
        rw [if_neg (by rw [inactivityHit_none cfg s.clock s3 hl0]; simp),
          if_pos (by simp [hp0, hl0, hto])]
      · right
        have hstep : applyTimeouts cfg s.clock s3
            = .inr { s3 with clock := s3.clock + 10 } :=
          applyTimeouts_not_hit cfg s.clock s3
            (by intro u hu; rw [hl0] at hu; cases hu)
            (by intro _ _; omega)
        refine ⟨_, hstep, by dsimp only; omega, ?_, ?_⟩
        · intro _
          exact ⟨by dsimp only; exact hl0, by dsimp only; rw [hwc, hw]⟩
        · intro hdl
          exfalso
          omega
    · right
      have hp1 : s3.paperCount = 1 := by rw [hp, hc]
      have hstep : applyTimeouts cfg s.clock s3
          = .inr { s3 with clock := s3.clock + 10 } :=
        applyTimeouts_not_hit cfg s.clock s3
          (by intro u hu
              rw [hl] at hu
              injection hu with hu
              subst hu
              omega)
          (by intro h0 _
              rw [hp1] at h0
              cases h0)
      refine ⟨_, hstep, by dsimp only; omega, ?_, ?_⟩
      · intro h0
        dsimp only at h0
        rw [hp1] at h0
        cases h0
      · intro _
        dsimp only
        omega

/-- If the count stays zero along the whole (fuel-bounded) run and the
fuel outlasts the initial timeout, the run ends in the initial-timeout
failure `(False, 0)`. -/
theorem runDet_no_detection_timeout (cfg : DetCfg) (stream : Nat → Bool)
    (hmax : 2 ≤ cfg.maxPapers) (hin : 1 ≤ cfg.inactivityTimeout) :
    ∀ (fuel : Nat) (s : DetState),
      s.waitingClear = false → s.paperCount = 0 → s.lastDetect = none →
      noDetection cfg stream fuel s = true →
      1 ≤ fuel →
      cfg.initialStart + cfg.initialTimeout ≤ s.clock + 10 * (fuel - 1) →
      runDet cfg stream fuel s = .inl (some (false, 0)) := by
  intro fuel
  induction fuel with
  | zero =>
    intro s _ _ _ _ h1 _
    omega
  | succ f ih =>
    intro s hw hc hld hnd _ hclk
    rcases detectStep_zero_state cfg stream s hw hc hld hmax hin with
      hstep | ⟨s', hstep, hck, hzero, hpos⟩
    · rw [runDet, hstep]
    · unfold noDetection at hnd
      rw [hstep] at hnd
      simp only [Bool.and_eq_true, beq_iff_eq] at hnd
      obtain ⟨hc', hnd'⟩ := hnd
      obtain ⟨hld', hw'⟩ := hzero hc'
      rw [runDet_succ_inr cfg stream f s s' hstep]
      rcases Nat.eq_zero_or_pos f with hf | hf
      · subst hf
        exact absurd (hpos (by omega)) (by omega)
      · exact ih s' hw' hc' hld' hnd' (by omega) (by omega)

/-- Claim C7: `wait_for_multiple_papers` never returns success with a
zero count; and when no paper is ever detected along the run (count
stays zero) and the initial timeout elapses, it returns the failure
`(False, 0)` — provided the cap is at least 2, the inactivity window
is positive, and the fuel outlasts the deadline. -/
theorem zero_count_is_failure (cfg : DetCfg) (stream : Nat → Bool)
    (fuel : Nat) :
    (∀ n, wait_for_multiple_papers cfg stream fuel = .inl (some (true, n)) →
      1 ≤ n)
    ∧ (2 ≤ cfg.maxPapers → 1 ≤ cfg.inactivityTimeout →
       noDetection cfg stream fuel (detInitState stream) = true →
       1 ≤ fuel →
       cfg.initialStart + cfg.initialTimeout ≤
         (detInitState stream).clock + 10 * (fuel - 1) →
       wait_for_multiple_papers cfg stream fuel = .inl (some (false, 0))) := by
  constructor
  · intro n h
    exact (runDet_count_le cfg stream fuel (detInitState stream)
      (Or.inr rfl) true n h).2 rfl
  · intro hmax hin hnd hf hclk
    exact runDet_no_detection_timeout cfg stream hmax hin fuel
      (detInitState stream) rfl rfl rfl hnd hf hclk

/-- Witness for C7: a run that does return a success has count ≥ 1,
and a sensor that stays clear forever yields `(False, 0)` once the
initial timeout (here 1 s after a 0.5 s pre-roll) elapses. -/
theorem zero_count_is_failure_witness :
    (1 : Nat) ≤ 1
    ∧ wait_for_multiple_papers ⟨1000, 100, 10, 0⟩ (fun _ => true) 11
      = .inl (some (false, 0)) := by
  constructor
  · exact (zero_count_is_failure ⟨50, 3000, 2, 0⟩ (fun k => k < 6 || 8 < k)
      7).1 1 (by decide)
  · exact (zero_count_is_failure ⟨1000, 100, 10, 0⟩ (fun _ => true) 11).2
      (by decide) (by decide) (by decide) (by decide) (by decide)

/-- A run whose first step already returns. -/
theorem runDet_succ_inl (cfg : DetCfg) (stream : Nat → Bool)
    (fuel : Nat) (s : DetState) (r : DetResult)
    (hstep : detectStep cfg stream s = .inl r) :
    runDet cfg stream (fuel + 1) s = .inl r := by
  rw [runDet, hstep]

/-- While `waiting_for_clear` holds and the sensor stays LOW, every
iteration takes the skip path: `m` iterations only advance the clock
by `10 m` and consume `m` readings. -/
theorem runDet_skip (cfg : DetCfg) (stream : Nat → Bool) :
    ∀ (m : Nat) (s : DetState), s.waitingClear = true →
      (∀ j, j < m → stream (s.idx + j) = false) →
      runDet cfg stream m s
        = .inr { s with clock := s.clock + 10 * m, idx := s.idx + m } := by
  intro m
  induction m with
  | zero =>
    intro s hw hj
    simp [runDet]
  | succ m ih =>
    intro s hw hj
    have h0 : stream s.idx = false := by simpa using hj 0 (Nat.succ_pos m)
    have hstep : detectStep cfg stream s
        = .inr { s with idx := s.idx + 1, clock := s.clock + 10 } := by
      unfold detectStep
      rw [if_pos (by rw [hw, h0]; rfl)]
    rw [runDet_succ_inr cfg stream m s _ hstep,
      ih _ (by exact hw) (by
        intro j hjlt
        dsimp only
        rw [show s.idx + 1 + j = s.idx + (1 + j) from by omega]
        exact hj (1 + j) (by omega))]
    dsimp only
    rw [show s.clock + 10 + 10 * m = s.clock + 10 * (m + 1) from by omega,
      show s.idx + 1 + m = s.idx + (m + 1) from by omega]

/-- `r = some (b, n)` returned by the timeout checks has `n` equal to
the state's count or zero. -/
theorem applyTimeouts_inl_count (cfg : DetCfg) (t : Nat) (s : DetState)
    (r : DetResult) (h : applyTimeouts cfg t s = .inl r)
    (b : Bool) (n : Nat) (hr : r = some (b, n)) :
    n = s.paperCount ∨ n = 0 := by
  subst hr
  rcases applyTimeouts_inl _ _ _ _ h with ⟨u, -, -, hres⟩ | ⟨hres, -, -, -⟩
  · rcases hres with ⟨hres, -⟩ | ⟨hres, -⟩
    · injection hres with hres
      obtain ⟨-, hn⟩ := Prod.mk.injEq .. ▸ hres
      exact Or.inl hn
    · injection hres with hres
      obtain ⟨-, hn⟩ := Prod.mk.injEq .. ▸ hres
      exact Or.inr hn
  · injection hres with hres
    obtain ⟨-, hn⟩ := Prod.mk.injEq .. ▸ hres
    exact Or.inr hn

/-- A LOW poll in the counting phase whose candidate timer has not yet
reached the debounce window, with neither timeout expiring: the loop
continues, only recording the candidate start time. -/
theorem detectStep_low_nocount (cfg : DetCfg) (stream : Nat → Bool)
    (s : DetState) (hw : s.waitingClear = false)
    (hlow : stream s.idx = false)
    (hshort : s.clock - s.firstLow.getD s.clock < IR_DETECTION_TIME)
    (hin : ∀ u, s.lastDetect = some u → s.clock - u < cfg.inactivityTimeout)
    (hinit : s.paperCount = 0 → s.lastDetect = none →
      s.clock - cfg.initialStart < cfg.initialTimeout) :
    detectStep cfg stream s
      = .inr { s with firstLow := some (s.firstLow.getD s.clock),
                      clock := s.clock + 10, idx := s.idx + 1 } := by
  unfold detectStep
  have hcond : (s.waitingClear && !(stream s.idx)) = false := by
    rw [hw, Bool.false_and]
  rw [hcond]
  simp only [Bool.false_eq_true, if_false]
  rw [hlow, clearCheck_not_waiting stream { s with idx := s.idx + 1 } (by exact hw)]
  rw [applyDetection_low_short cfg s.clock _ (by dsimp only; exact hshort)]
  dsimp only
  rw [applyTimeouts_not_hit cfg s.clock _ (by dsimp only; exact hin)
    (by dsimp only; exact hinit)]

/-- A LOW poll in the counting phase completing the debounce window
below the cap counts one paper, stamps the detection time, raises
`waiting_for_clear` and (given a positive inactivity window) continues
the loop. -/
theorem detectStep_low_cnt (cfg : DetCfg) (stream : Nat → Bool)
    (s : DetState) (u : Nat) (hw : s.waitingClear = false)
    (hlow : stream s.idx = false) (hfl : s.firstLow = some u)
    (hdeb : IR_DETECTION_TIME ≤ s.clock - u)
    (hcap : ¬ cfg.maxPapers ≤ s.paperCount + 1)
    (hin : 1 ≤ cfg.inactivityTimeout) :
    detectStep cfg stream s
      = .inr { s with paperCount := s.paperCount + 1,
                      lastDetect := some s.clock, waitingClear := true,
                      firstLow := none, clock := s.clock + 10,
                      idx := s.idx + 1 } := by
  unfold detectStep
  have hcond : (s.waitingClear && !(stream s.idx)) = false := by
    rw [hw, Bool.false_and]
  rw [hcond]
  simp only [Bool.false_eq_true, if_false]
  rw [hlow, clearCheck_not_waiting stream { s with idx := s.idx + 1 } (by exact hw)]
  rw [applyDetection_low_count cfg s.clock _ u (by dsimp only; exact hfl)
    (by exact hdeb) (by dsimp only; exact hcap)]
  dsimp only
  rw [applyTimeouts_not_hit cfg s.clock _
    (by
      intro v hv
      dsimp only at hv
      injection hv with hv
      omega)
    (by
      intro h0 _
      dsimp only at h0
      omega)]

/-- Outcomes of a LOW poll in the counting phase short of the debounce
window: the loop continues with the candidate timer set, or one of the
timeouts returns — with the unchanged count on success or `(False, 0)`.
No paper is counted. -/
theorem detectStep_low_nocount_cases (cfg : DetCfg) (stream : Nat → Bool)
    (s : DetState) (hw : s.waitingClear = false)
    (hlow : stream s.idx = false)
    (hshort : s.clock - s.firstLow.getD s.clock < IR_DETECTION_TIME) :
    detectStep cfg stream s
      = .inr { s with firstLow := some (s.firstLow.getD s.clock),
                      clock := s.clock + 10, idx := s.idx + 1 }
    ∨ detectStep cfg stream s = .inl (some (true, s.paperCount))
    ∨ detectStep cfg stream s = .inl (some (false, 0)) := by
  unfold detectStep
  have hcond : (s.waitingClear && !(stream s.idx)) = false := by
    rw [hw, Bool.false_and]
  rw [hcond]
  simp only [Bool.false_eq_true, if_false]
  rw [hlow, clearCheck_not_waiting stream { s with idx := s.idx + 1 } (by exact hw)]
  rw [applyDetection_low_short cfg s.clock _ (by dsimp only; exact hshort)]
  dsimp only
  rcases ht : applyTimeouts cfg s.clock
      { s with idx := s.idx + 1, firstLow := some (s.firstLow.getD s.clock) }
    with r | s4
  · rcases applyTimeouts_inl _ _ _ _ ht with ⟨u, -, -, hres⟩ | ⟨hres, -, -, -⟩
    · rcases hres with ⟨hres, -⟩ | ⟨hres, -⟩
      · subst hres
        exact Or.inr (Or.inl rfl)
      · subst hres
        exact Or.inr (Or.inr rfl)
    · subst hres
      exact Or.inr (Or.inr rfl)
  · left
    rw [applyTimeouts_inr _ _ _ _ ht]

/-- Outcomes of a HIGH poll in the counting phase: the loop continues
with the candidate timer reset (bounce rejection), or a timeout
returns — never counting a paper. -/
theorem detectStep_high_cases (cfg : DetCfg) (stream : Nat → Bool)
    (s : DetState) (hw : s.waitingClear = false)
    (hhigh : stream s.idx = true) :
    detectStep cfg stream s
      = .inr { s with firstLow := none, clock := s.clock + 10,
                      idx := s.idx + 1 }
    ∨ detectStep cfg stream s = .inl (some (true, s.paperCount))
    ∨ detectStep cfg stream s = .inl (some (false, 0)) := by
  unfold detectStep
  have hcond : (s.waitingClear && !(stream s.idx)) = false := by
    rw [hw, Bool.false_and]
  rw [hcond]
  simp only [Bool.false_eq_true, if_false]
  rw [hhigh, clearCheck_not_waiting stream { s with idx := s.idx + 1 } (by exact hw)]
  rw [applyDetection_high]
  dsimp only
  rcases ht : applyTimeouts cfg s.clock
      { s with idx := s.idx + 1, firstLow := none } with r | s4
  · rcases applyTimeouts_inl _ _ _ _ ht with ⟨u, -, -, hres⟩ | ⟨hres, -, -, -⟩
    · rcases hres with ⟨hres, -⟩ | ⟨hres, -⟩
      · subst hres
        exact Or.inr (Or.inl rfl)
      · subst hres
        exact Or.inr (Or.inr rfl)
    · subst hres
      exact Or.inr (Or.inr rfl)
  · left
    rw [applyTimeouts_inr _ _ _ _ ht]

/-- Claim C1: debounced counting discipline of the detection loop.
(1) While `waiting_for_clear` is set (awaiting the sensor to clear
after a count), no iteration increments the count, whether it
continues or returns.  (2) A continuous LOW run starting in the ready
state (flag down, no candidate) that spans the 0.2 s debounce window
(`k ≥ 3` polls at the 0.1 s poll period) increments `paper_count`
exactly once — the final state after the whole run carries exactly
`+1` — provided the cap and the timeouts do not cut the run short.
(3) A LOW run shorter than the debounce window (1 or 2 polls) followed
by a HIGH poll never increments the count (bounce rejection). -/
theorem paper_counting_debounce :
    (∀ (cfg : DetCfg) (stream : Nat → Bool) (s : DetState),
      s.waitingClear = true →
      (∀ s', detectStep cfg stream s = .inr s' → s'.paperCount = s.paperCount)
      ∧ (∀ b n, detectStep cfg stream s = .inl (some (b, n)) →
          n ≤ s.paperCount))
    ∧ (∀ (cfg : DetCfg) (stream : Nat → Bool) (s : DetState) (k : Nat),
      s.waitingClear = false → s.firstLow = none →
      3 ≤ k → (∀ j, j < k → stream (s.idx + j) = false) →
      s.paperCount + 1 < cfg.maxPapers →
      1 ≤ cfg.inactivityTimeout →
      (∀ u, s.lastDetect = some u → s.clock + 10 < u + cfg.inactivityTimeout) →
      (s.paperCount = 0 → s.clock + 10 < cfg.initialStart + cfg.initialTimeout) →
      cfg.initialStart ≤ s.clock →
      runDet cfg stream k s
        = .inr { s with paperCount := s.paperCount + 1,
                        lastDetect := some (s.clock + 20),
                        waitingClear := true, firstLow := none,
                        clock := s.clock + 10 * k, idx := s.idx + k })
    ∧ (∀ (cfg : DetCfg) (stream : Nat → Bool) (s : DetState) (k : Nat),
      s.waitingClear = false → s.firstLow = none →
      k = 1 ∨ k = 2 →
      (∀ j, j < k → stream (s.idx + j) = false) →
      stream (s.idx + k) = true →
      (∀ s', runDet cfg stream (k + 1) s = .inr s' →
        s'.paperCount = s.paperCount)
      ∧ (∀ b n, runDet cfg stream (k + 1) s = .inl (some (b, n)) →
        n ≤ s.paperCount)
      ∧ runDet cfg stream (k + 1) s ≠ .inl none) := by
  refine ⟨?_, ?_, ?_⟩
  · -- (1) suppression while awaiting clear
    intro cfg stream s hw
    by_cases hraw : stream s.idx = true
    · have hcond : (s.waitingClear && !(stream s.idx)) = false := by
        rw [hraw]
        simp
      obtain ⟨hc1, -, -⟩ := clearCheck_fields stream { s with idx := s.idx + 1 }
      dsimp only at hc1
      constructor
      · intro s' h
        unfold detectStep at h
        rw [hcond] at h
        simp only [Bool.false_eq_true, if_false] at h
        rw [hraw, applyDetection_high] at h
        dsimp only at h
        have hs' := applyTimeouts_inr _ _ _ _ h
        subst hs'
        dsimp only
        exact hc1
      · intro b n h
        unfold detectStep at h
        rw [hcond] at h
        simp only [Bool.false_eq_true, if_false] at h
        rw [hraw, applyDetection_high] at h
        dsimp only at h
        rcases applyTimeouts_inl_count _ _ _ _ h b n rfl with hn | hn
        · dsimp only at hn
          rw [hc1] at hn
          omega
        · omega
    · have hf : stream s.idx = false := by
        revert hraw
        cases stream s.idx <;> simp
      constructor
      · intro s' h
        unfold detectStep at h
        rw [if_pos (by rw [hw, hf]; rfl)] at h
        injection h with h
        subst h
        rfl
      · intro b n h
        unfold detectStep at h
        rw [if_pos (by rw [hw, hf]; rfl)] at h
        exact absurd h (by simp)
  · -- (2) exactly one increment per qualifying LOW run
    intro cfg stream s k hw hfl hk3 hj hcap hin hlast hinit0 hstart
    obtain ⟨m, rfl⟩ : ∃ m, k = m + 3 := ⟨k - 3, by omega⟩
    have h0 : stream s.idx = false := by simpa using hj 0 (by omega)
    have h1 : stream (s.idx + 1) = false := hj 1 (by omega)
    have h2 : stream (s.idx + 2) = false := hj 2 (by omega)
    have hs1 : detectStep cfg stream s
        = .inr { s with firstLow := some s.clock,
                        clock := s.clock + 10, idx := s.idx + 1 } := by
      have hx := detectStep_low_nocount cfg stream s hw h0
        (by rw [hfl]; simp [IR_DETECTION_TIME])
        (by intro u hu; have := hlast u hu; omega)
        (by intro h0c _; have h1x := hinit0 h0c; have h2x := hstart; omega)
      rw [hfl] at hx
      simpa only [Option.getD_none] using hx
    have hs2 : detectStep cfg stream
        { s with firstLow := some s.clock, clock := s.clock + 10,
                 idx := s.idx + 1 }
        = .inr { s with firstLow := some s.clock, clock := s.clock + 20,
                        idx := s.idx + 2 } := by
      have hx := detectStep_low_nocount cfg stream
        { s with firstLow := some s.clock, clock := s.clock + 10,
                 idx := s.idx + 1 }
        (by exact hw) (by exact h1)
        (by dsimp only; simp only [Option.getD_some, IR_DETECTION_TIME]; omega)
        (by intro u hu; dsimp only at hu ⊢; have := hlast u hu; omega)
        (by intro h0c _; dsimp only at h0c; have h1x := hinit0 h0c
            have h2x := hstart; dsimp only; omega)
      rw [hx]
      simp only [Sum.inr.injEq, DetState.mk.injEq, Option.getD_some,
        Option.some.injEq, eq_self_iff_true, true_and, and_true]
    have hs3 : detectStep cfg stream
        { s with firstLow := some s.clock, clock := s.clock + 20,
                 idx := s.idx + 2 }
        = .inr { s with paperCount := s.paperCount + 1,
                        lastDetect := some (s.clock + 20),
                        waitingClear := true, firstLow := none,
                        clock := s.clock + 30, idx := s.idx + 3 } := by
      have hx := detectStep_low_cnt cfg stream
        { s with firstLow := some s.clock, clock := s.clock + 20,
                 idx := s.idx + 2 } s.clock
        (by exact hw) (by exact h2) rfl
        (by dsimp only; simp only [IR_DETECTION_TIME]; omega)
        (by dsimp only; omega) hin
      rw [hx]
    have e1 : runDet cfg stream (m + 3) s
        = runDet cfg stream (m + 2)
          { s with firstLow := some s.clock, clock := s.clock + 10,
                   idx := s.idx + 1 } :=
      runDet_succ_inr cfg stream (m + 2) _ _ hs1
    have e2 : runDet cfg stream (m + 2)
        { s with firstLow := some s.clock, clock := s.clock + 10,
                 idx := s.idx + 1 }
        = runDet cfg stream (m + 1)
          { s with firstLow := some s.clock, clock := s.clock + 20,
                   idx := s.idx + 2 } :=
      runDet_succ_inr cfg stream (m + 1) _ _ hs2
    have e3 : runDet cfg stream (m + 1)
        { s with firstLow := some s.clock, clock := s.clock + 20,
                 idx := s.idx + 2 }
        = runDet cfg stream m
          { s with paperCount := s.paperCount + 1,
                   lastDetect := some (s.clock + 20), waitingClear := true,
                   firstLow := none, clock := s.clock + 30,
                   idx := s.idx + 3 } :=
      runDet_succ_inr cfg stream m _ _ hs3
    rw [e1, e2, e3, runDet_skip cfg stream m _ rfl (by
      intro j hjlt
      dsimp only
      rw [show s.idx + 3 + j = s.idx + (3 + j) from by omega]
      exact hj (3 + j) (by omega))]
    simp only [Sum.inr.injEq, DetState.mk.injEq, Option.some.injEq,
      eq_self_iff_true, true_and, and_true]
    omega
  · -- (3) bounce rejection for sub-debounce LOW runs
    intro cfg stream s k hw hfl hk hj hkh
    have master : (∃ s'', runDet cfg stream (k + 1) s = .inr s''
          ∧ s''.paperCount = s.paperCount)
        ∨ runDet cfg stream (k + 1) s = .inl (some (true, s.paperCount))
        ∨ runDet cfg stream (k + 1) s = .inl (some (false, 0)) := by
      rcases hk with rfl | rfl
      · have h0 : stream s.idx = false := by simpa using hj 0 (by omega)
        have hcases := detectStep_low_nocount_cases cfg stream s hw h0
          (by rw [hfl]; simp [IR_DETECTION_TIME])
        rw [hfl] at hcases
        simp only [Option.getD_none] at hcases
        rcases hcases with h1s | h1s | h1s
        · have e1 : runDet cfg stream 2 s
              = runDet cfg stream 1
                { s with firstLow := some s.clock, clock := s.clock + 10,
                         idx := s.idx + 1 } :=
            runDet_succ_inr cfg stream 1 _ _ h1s
          have hc2 := detectStep_high_cases cfg stream
            { s with firstLow := some s.clock, clock := s.clock + 10,
                     idx := s.idx + 1 }
            (by exact hw) (by exact hkh)
          rcases hc2 with h2s | h2s | h2s
          · have hrun : runDet cfg stream 2 s
                = .inr { s with firstLow := none, clock := s.clock + 10 + 10,
                                idx := s.idx + 1 + 1 } := by
              rw [e1, runDet_succ_inr cfg stream 0 _ _ h2s, runDet]
            exact Or.inl ⟨_, hrun, rfl⟩
          · exact Or.inr (Or.inl (by rw [e1, runDet_succ_inl _ _ 0 _ _ h2s]))
          · exact Or.inr (Or.inr (by rw [e1, runDet_succ_inl _ _ 0 _ _ h2s]))
        · exact Or.inr (Or.inl (runDet_succ_inl _ _ 1 _ _ h1s))
        · exact Or.inr (Or.inr (runDet_succ_inl _ _ 1 _ _ h1s))
      · have h0 : stream s.idx = false := by simpa using hj 0 (by omega)
        have h1 : stream (s.idx + 1) = false := hj 1 (by omega)
        have hcases := detectStep_low_nocount_cases cfg stream s hw h0
          (by rw [hfl]; simp [IR_DETECTION_TIME])
        rw [hfl] at hcases
        simp only [Option.getD_none] at hcases
        rcases hcases with h1s | h1s | h1s
        · have e1 : runDet cfg stream 3 s
              = runDet cfg stream 2
                { s with firstLow := some s.clock, clock := s.clock + 10,
                         idx := s.idx + 1 } :=
            runDet_succ_inr cfg stream 2 _ _ h1s
          have hcases2 := detectStep_low_nocount_cases cfg stream
            { s with firstLow := some s.clock, clock := s.clock + 10,
                     idx := s.idx + 1 }
            (by exact hw) (by exact h1)
            (by dsimp only; simp only [Option.getD_some, IR_DETECTION_TIME]
                omega)
          dsimp only at hcases2
          rcases hcases2 with h2s | h2s | h2s
          · have e2 : runDet cfg stream 2
                { s with firstLow := some s.clock, clock := s.clock + 10,
                         idx := s.idx + 1 }
                = runDet cfg stream 1
                  { s with firstLow := some s.clock,
                           clock := s.clock + 10 + 10,
                           idx := s.idx + 1 + 1 } :=
              runDet_succ_inr cfg stream 1 _ _ h2s
            have hc3 := detectStep_high_cases cfg stream
              { s with firstLow := some s.clock, clock := s.clock + 10 + 10,
                       idx := s.idx + 1 + 1 }
              (by exact hw) (by dsimp only; rw [show s.idx + 1 + 1 = s.idx + 2 from by omega]; exact hkh)
            rcases hc3 with h3s | h3s | h3s
            · have hrun : runDet cfg stream 3 s
                  = .inr { s with firstLow := none,
                                  clock := s.clock + 10 + 10 + 10,
                                  idx := s.idx + 1 + 1 + 1 } := by
                rw [e1, e2, runDet_succ_inr cfg stream 0 _ _ h3s, runDet]
              exact Or.inl ⟨_, hrun, rfl⟩
            · exact Or.inr (Or.inl (by
                rw [e1, e2, runDet_succ_inl _ _ 0 _ _ h3s]))
            · exact Or.inr (Or.inr (by
                rw [e1, e2, runDet_succ_inl _ _ 0 _ _ h3s]))
          · exact Or.inr (Or.inl (by
              rw [e1, runDet_succ_inl _ _ 1 _ _ h2s]))
          · exact Or.inr (Or.inr (by
              rw [e1, runDet_succ_inl _ _ 1 _ _ h2s]))
        · exact Or.inr (Or.inl (runDet_succ_inl _ _ 2 _ _ h1s))
        · exact Or.inr (Or.inr (runDet_succ_inl _ _ 2 _ _ h1s))
    refine ⟨?_, ?_, ?_⟩
    · intro s' h
      rcases master with ⟨s'', heq, hcnt⟩ | heq | heq
      · rw [heq] at h
        injection h with h
        subst h
        exact hcnt
      · rw [heq] at h
        exact absurd h (by simp)
      · rw [heq] at h
        exact absurd h (by simp)
    · intro b n h
      rcases master with ⟨s'', heq, hcnt⟩ | heq | heq
      · rw [heq] at h
        exact absurd h (by simp)
      · rw [heq] at h
        injection h with h
        injection h with h
        obtain ⟨-, hn⟩ := Prod.mk.injEq .. ▸ h
        omega
      · rw [heq] at h
        injection h with h
        injection h with h
        obtain ⟨-, hn⟩ := Prod.mk.injEq .. ▸ h
        omega
    · intro h
      rcases master with ⟨s'', heq, hcnt⟩ | heq | heq
      · rw [heq] at h
        exact absurd h (by simp)
      · rw [heq] at h
        injection h with h
        exact absurd h (by simp)
      · rw [heq] at h
        injection h with h
        exact absurd h (by simp)

/-- Witness for C1: a waiting-clear iteration on a stuck-LOW sensor
keeps the count; a 4-poll LOW run from the ready state counts exactly
one paper; a 2-poll LOW bounce followed by HIGH keeps the count at
zero. -/
theorem paper_counting_debounce_witness :
    ((⟨1, some 0, none, true, 110, 1⟩ : DetState).paperCount
      = (⟨1, some 0, none, true, 100, 0⟩ : DetState).paperCount)
    ∧ runDet ⟨1000, 3000, 10, 0⟩ streamLowAll 4 ⟨0, none, none, false, 300, 30⟩
      = .inr ⟨1, some 320, none, true, 340, 34⟩
    ∧ ((⟨0, none, none, false, 30, 3⟩ : DetState).paperCount
      = (⟨0, none, none, false, 0, 0⟩ : DetState).paperCount) := by
  refine ⟨?_, ?_, ?_⟩
  · exact (paper_counting_debounce.1 cfgStuck streamLowAll
      ⟨1, some 0, none, true, 100, 0⟩ rfl).1
      ⟨1, some 0, none, true, 110, 1⟩ (by decide)
  · exact paper_counting_debounce.2.1 ⟨1000, 3000, 10, 0⟩ streamLowAll
      ⟨0, none, none, false, 300, 30⟩ 4 rfl rfl (by omega) (fun j hj => rfl)
      (by decide) (by decide) (fun u hu => nomatch hu) (fun _ => by decide)
      (by decide)
  · exact (paper_counting_debounce.2.2 ⟨1000, 3000, 10, 0⟩
      (fun n => decide (2 ≤ n)) ⟨0, none, none, false, 0, 0⟩ 2 rfl rfl
      (Or.inr rfl) (fun j hj => by interval_cases j <;> rfl) rfl).1
      ⟨0, none, none, false, 30, 3⟩ (by decide)

/-- C2 counterexample: with the sensor stuck LOW after the first paper
is counted, `wait_for_multiple_papers` never returns, for any number
of loop iterations.  Once `waiting_for_clear` is set, every iteration
takes the `continue` path at main.py:1309-1312, which skips the
inactivity-timeout check at main.py:1365 forever — the claimed
"returns even if the sensor never returns to HIGH" fails. -/
theorem stuck_low_never_returns :
    ¬ ∃ (fuel : Nat) (r : DetResult),
      wait_for_multiple_papers cfgStuck streamLowAll fuel = .inl r := by
  rintro ⟨fuel, r, h⟩
  by_cases hk : fuel ≤ 2
  · interval_cases fuel
    · exact absurd (show (wait_for_multiple_papers cfgStuck streamLowAll
        0).isLeft = true by rw [h]; rfl) (by decide)
    · exact absurd (show (wait_for_multiple_papers cfgStuck streamLowAll
        1).isLeft = true by rw [h]; rfl) (by decide)
    · exact absurd (show (wait_for_multiple_papers cfgStuck streamLowAll
        2).isLeft = true by rw [h]; rfl) (by decide)
  · obtain ⟨k, rfl⟩ : ∃ k, fuel = k + 3 := ⟨fuel - 3, by omega⟩
    have h' : runDet cfgStuck streamLowAll k
        ⟨1, some 320, none, true, 330, 33⟩ = .inl r := h
    rw [runDet_skip cfgStuck streamLowAll k
      ⟨1, some 320, none, true, 330, 33⟩ rfl (fun j hj => rfl)] at h'
    exact Sum.noConfusion h'

/-- Claim C2 as amended: once at least one paper is counted and the
inactivity window has elapsed since the last detection, any iteration
whose poll reads HIGH returns success with the accumulated count
(whether or not `waiting_for_clear` is still set), and the post-timeout
wait for the sensor to return to baseline is bounded (at most 5.6 s of
clock, for every reading sequence).  The counterexample
`stuck_low_never_returns` shows the HIGH poll is necessary: a sensor
that stays LOW after a count pins the loop in the waiting-for-clear
skip path and the inactivity return is never reached. -/
theorem inactivity_return_amended :
    (∀ (cfg : DetCfg) (stream : Nat → Bool) (s : DetState) (u : Nat),
      1 ≤ s.paperCount → s.lastDetect = some u →
      cfg.inactivityTimeout ≤ s.clock - u → stream s.idx = true →
      detectStep cfg stream s = .inl (some (true, s.paperCount)))
    ∧ (∀ (stream : Nat → Bool) (start fuel clock idx : Nat),
      clock ≤ start + 560 →
      (clearWaitAux stream start fuel clock idx).1 ≤ start + 560) := by
  constructor
  · intro cfg stream s u hpc hld hto hhigh
    obtain ⟨hc1, hc2, -⟩ := clearCheck_fields stream { s with idx := s.idx + 1 }
    dsimp only at hc1 hc2
    unfold detectStep
    rw [hhigh]
    simp only [Bool.not_true, Bool.and_false, Bool.false_eq_true, if_false]
    rw [applyDetection_high]
    dsimp only
    rw [applyTimeouts_hit cfg s.clock _ u (by dsimp only; rw [hc2, hld])
      (by exact hto) (by dsimp only; omega)]
    dsimp only
    rw [hc1]
  · intro stream start fuel
    induction fuel with
    | zero =>
      intro clock idx h
      simpa [clearWaitAux] using h
    | succ f ih =>
      intro clock idx h
      unfold clearWaitAux
      split
      · split
        · split
          · dsimp only
            omega
          · exact ih (clock + 60) (idx + 6) (by omega)
        · exact ih (clock + 10) (idx + 1) (by omega)
      · exact h

/-- Witness for C2's amended theorem: a concrete post-count state with
the inactivity window elapsed and a HIGH poll returns `(True, 1)`; the
baseline wait from clock 0 stays below 560 even on a stuck-LOW
sensor. -/
theorem inactivity_return_amended_witness :
    detectStep ⟨1000, 3000, 10, 0⟩ (fun _ => true)
      ⟨1, some 0, none, false, 1000, 0⟩ = .inl (some (true, 1))
    ∧ (clearWaitAux (fun _ => false) 0 60 0 0).1 ≤ 560 := by
  constructor
  · exact inactivity_return_amended.1 ⟨1000, 3000, 10, 0⟩ (fun _ => true)
      ⟨1, some 0, none, false, 1000, 0⟩ 0 (by decide) rfl (by decide) rfl
  · exact inactivity_return_amended.2 (fun _ => false) 0 60 0 0 (by decide)

end R3Cycle
